import Mathlib

set_option autoImplicit false
set_option linter.dupNamespace false

namespace RhUtcp

/-! Shallow embedding of the rh-utcp core: the UTCP manual data model with its
JSON serialization (src/pkg/utcp/manual.go), the provider factory registry
(src/unnamed/part_002, package providers), and the configuration model with
its validation (src/internal/config/config.go).

Go's `interface{}` JSON values are modelled by the inductive `Json` below;
Go maps (`map[string]T`) are modelled as association lists in iteration
order, with first-match lookup and in-place update, matching Go map
semantics of unique keys. Go `error` results are modelled as
`Option String` (the `fmt.Errorf` message) or `Except String`. -/

/-- JSON values, standing in for Go `interface{}` data that `encoding/json`
produces and consumes. -/
inductive Json where
  | null
  | bool (b : Bool)
  | num (n : Int)
  | str (s : String)
  | arr (elems : List Json)
  | obj (fields : List (String × Json))

/-- First-match lookup in an association list, as Go map indexing
`m[k]` (keys in a Go map are unique, so first match is the match). -/
def lookupKey {α : Type} : List (String × α) → String → Option α
  | [], _ => none
  | (k, v) :: rest, key => if k = key then some v else lookupKey rest key

/-- Go map assignment `m[k] = v`: replaces the entry for `k` when present,
otherwise adds one. -/
def setKey {α : Type} : List (String × α) → String → α → List (String × α)
  | [], key, v => [(key, v)]
  | (k, w) :: rest, key, v =>
    if k = key then (key, v) :: rest else (k, w) :: setKey rest key v

/-- Field projection out of a JSON object (`none` on non-objects), used to
state where a key appears in serialized output. -/
def Json.getObjField : Json → String → Option Json
  | .obj fs, key => lookupKey fs key
  | _, _ => none

namespace Utcp

/-- Go struct `Property` (manual.go): a single property in a schema. The
`Default interface{}` field with tag `json:"default,omitempty"` is an
interface value, empty exactly when nil, so it is an `Option Json` here:
`none` is the nil interface (field omitted), `some v` is a present default
(field emitted, whatever `v` is). -/
structure Property where
  type' : String
  description : String
  enum : List String
  default : Option Json

/-- Go struct `Schema` (manual.go). `Properties map[string]Property` is an
association list with unique keys. -/
structure Schema where
  type' : String
  properties : List (String × Property)
  required : List String
  description : String
  title : String

/-- Go struct `Tool` (manual.go). -/
structure Tool where
  name : String
  description : String
  inputs : Schema
  outputs : Schema
  tags : List String
  averageResponseSize : Int
  toolProvider : List (String × Json)

/-- Go struct `Manual` (manual.go). -/
structure Manual where
  version : String
  tools : List Tool

/-- Go `NewManual()`. -/
def NewManual : Manual := { version := "0.1.0", tools := [] }

/-- Go `(m *Manual) AddTool(tool)`. -/
def Manual.AddTool (m : Manual) (tool : Tool) : Manual :=
  { m with tools := m.tools ++ [tool] }

/-- JSON encoding of `Property` per its struct tags: `type` and
`description` always, `enum` omitted when empty (`omitempty` on a slice),
`default` omitted exactly when the interface value is nil. -/
def Property.toJson (p : Property) : Json :=
  .obj ([("type", .str p.type'), ("description", .str p.description)]
    ++ (if p.enum.isEmpty then [] else [("enum", .arr (p.enum.map .str))])
    ++ (match p.default with
        | none => []
        | some v => [("default", v)]))

/-- JSON encoding of `Schema` per its struct tags (`omitempty` on
`properties`, `required`, `description`, `title`). -/
def Schema.toJson (s : Schema) : Json :=
  .obj ([("type", .str s.type')]
    ++ (if s.properties.isEmpty then []
        else [("properties", .obj (s.properties.map fun kp => (kp.1, kp.2.toJson)))])
    ++ (if s.required.isEmpty then [] else [("required", .arr (s.required.map .str))])
    ++ (if s.description = "" then [] else [("description", .str s.description)])
    ++ (if s.title = "" then [] else [("title", .str s.title)]))

/-- JSON encoding of `Tool` per its struct tags (`omitempty` on `tags` and
`average_response_size`; `tool_provider` always present). -/
def Tool.toJson (t : Tool) : Json :=
  .obj ([("name", .str t.name), ("description", .str t.description),
      ("inputs", t.inputs.toJson), ("outputs", t.outputs.toJson)]
    ++ (if t.tags.isEmpty then [] else [("tags", .arr (t.tags.map .str))])
    ++ (if t.averageResponseSize = 0 then []
        else [("average_response_size", .num t.averageResponseSize)])
    ++ [("tool_provider", .obj t.toolProvider)])

/-- Go `(m *Manual) ToJSON()`: `json.MarshalIndent` of the manual. The
embedding works at the level of the JSON document tree; the returned string
is the indented rendering of this tree, and `encoding/json` marshalling of
these struct types cannot fail. -/
def Manual.toJson (m : Manual) : Json :=
  .obj [("version", .str m.version), ("tools", .arr (m.tools.map Tool.toJson))]

/-! JSON decoding: the behaviour of Go `json.Unmarshal` on these struct
types. A missing key leaves the target field at its zero value; a JSON
`null` leaves the target unchanged (so a fresh field keeps its zero value);
a type mismatch is an unmarshalling error (`none`). -/

/-- Decode a JSON value into a Go `string` target. -/
def asString : Json → Option String
  | .str s => some s
  | .null => some ""
  | _ => none

/-- Decode a JSON value into a Go `int` target. -/
def asInt : Json → Option Int
  | .num n => some n
  | .null => some 0
  | _ => none

/-- Element-wise decoding of a JSON array's elements; any element error
aborts the whole decode, as in `encoding/json`. -/
def decodeList {α : Type} (f : Json → Option α) : List Json → Option (List α)
  | [] => some []
  | x :: xs =>
    match f x, decodeList f xs with
    | some y, some ys => some (y :: ys)
    | _, _ => none

/-- Decode a JSON value into a Go `[]string` target. -/
def asStringList : Json → Option (List String)
  | .arr xs => decodeList asString xs
  | .null => some []
  | _ => none

/-- Decode a JSON value into a Go `map[string]interface{}` target. -/
def asObj : Json → Option (List (String × Json))
  | .obj fs => some fs
  | .null => some []
  | _ => none

/-- Unmarshal one struct field: absent keys produce the zero value `zero`,
present values go through `parse`. -/
def getField {α : Type} (fields : List (String × Json)) (key : String)
    (parse : Json → Option α) (zero : α) : Option α :=
  match lookupKey fields key with
  | none => some zero
  | some v => parse v

/-- Go zero value of `Property`. -/
def Property.zero : Property := ⟨"", "", [], none⟩

/-- Go zero value of `Schema`. -/
def Schema.zero : Schema := ⟨"", [], [], "", ""⟩

/-- Unmarshal a `Property`. The `Default interface{}` field receives the
raw JSON value when present (JSON `null` leaves the interface nil). -/
def Property.fromJson : Json → Option Property
  | .obj fs => do
    let t ← getField fs "type" asString ""
    let d ← getField fs "description" asString ""
    let e ← getField fs "enum" asStringList []
    let dv : Option Json :=
      match lookupKey fs "default" with
      | none => none
      | some .null => none
      | some v => some v
    some ⟨t, d, e, dv⟩
  | .null => some Property.zero
  | _ => none

/-- Decode each value of a JSON object into a `Property`. -/
def decodePropertyPairs : List (String × Json) → Option (List (String × Property))
  | [] => some []
  | (k, v) :: rest =>
    match Property.fromJson v, decodePropertyPairs rest with
    | some p, some ps => some ((k, p) :: ps)
    | _, _ => none

/-- Decode a JSON value into a Go `map[string]Property` target. -/
def asPropertyMap : Json → Option (List (String × Property))
  | .obj fs => decodePropertyPairs fs
  | .null => some []
  | _ => none

/-- Unmarshal a `Schema`. -/
def Schema.fromJson : Json → Option Schema
  | .obj fs => do
    let t ← getField fs "type" asString ""
    let ps ← getField fs "properties" asPropertyMap []
    let rq ← getField fs "required" asStringList []
    let d ← getField fs "description" asString ""
    let ti ← getField fs "title" asString ""
    some ⟨t, ps, rq, d, ti⟩
  | .null => some Schema.zero
  | _ => none

/-- Unmarshal a `Tool`. -/
def Tool.fromJson : Json → Option Tool
  | .obj fs => do
    let n ← getField fs "name" asString ""
    let d ← getField fs "description" asString ""
    let i ← getField fs "inputs" Schema.fromJson Schema.zero
    let o ← getField fs "outputs" Schema.fromJson Schema.zero
    let tg ← getField fs "tags" asStringList []
    let sz ← getField fs "average_response_size" asInt 0
    let tp ← getField fs "tool_provider" asObj []
    some ⟨n, d, i, o, tg, sz, tp⟩
  | .null => some ⟨"", "", Schema.zero, Schema.zero, [], 0, []⟩
  | _ => none

/-- Decode a JSON value into a Go `[]Tool` target. -/
def asToolList : Json → Option (List Tool)
  | .arr xs => decodeList Tool.fromJson xs
  | .null => some []
  | _ => none

/-- Unmarshal a `Manual` (`json.Unmarshal` into a `Manual` value). -/
def Manual.fromJson : Json → Option Manual
  | .obj fs => do
    let v ← getField fs "version" asString ""
    let ts ← getField fs "tools" asToolList []
    some ⟨v, ts⟩
  | .null => some ⟨"", []⟩
  | _ => none

end Utcp

namespace Providers

/-- The `Provider` interface (package providers): a provider is determined
by its observable behaviour — the tools it lists, its name, its type tag
and its live enabled state. -/
structure Provider where
  getTools : List Utcp.Tool
  name : String
  type' : String
  enabled : Bool

/-- Go `map[string]interface{}` configuration passed to factories. -/
abbrev ConfigMap := List (String × Json)

/-- Go `type Factory func(config map[string]interface{}) (Provider, error)`. -/
def Factory : Type := ConfigMap → Except String Provider

/-- Go `Registry`: the factory map and the live instance map. The
`sync.RWMutex` serializes access; each operation is modelled as an atomic
function of the registry state. -/
structure Registry where
  factories : List (String × Factory)
  providers : List (String × Provider)

/-- Go `NewRegistry()`. -/
def NewRegistry : Registry := ⟨[], []⟩

/-- Go `(r *Registry) RegisterFactory(providerType, factory)`: fails if the
type is already present, otherwise stores the factory. Returns the Go
error (`none` is nil) and the updated state. -/
def Registry.RegisterFactory (r : Registry) (providerType : String) (factory : Factory) :
    Option String × Registry :=
  match lookupKey r.factories providerType with
  | some _ => (some ("provider type " ++ providerType ++ " already registered"), r)
  | none => (none, { r with factories := setKey r.factories providerType factory })

/-- Go `(r *Registry) CreateProvider(name, providerType, config)`: looks up
the factory, writes `config["name"] = name` into the caller's map, runs the
factory, and on success stores the instance under `name`. Since Go maps are
reference values, the (possibly mutated) config map is part of the result. -/
def Registry.CreateProvider (r : Registry) (name providerType : String) (config : ConfigMap) :
    Option String × Registry × ConfigMap :=
  match lookupKey r.factories providerType with
  | none => (some ("unknown provider type: " ++ providerType), r, config)
  | some factory =>
    let config' := setKey config "name" (.str name)
    match factory config' with
    | .error e => (some ("failed to create provider " ++ name ++ ": " ++ e), r, config')
    | .ok provider => (none, { r with providers := setKey r.providers name provider }, config')

/-- Go `(r *Registry) GetProvider(name)`: the `(provider, exists)` pair is
an `Option`. -/
def Registry.GetProvider (r : Registry) (name : String) : Option Provider :=
  lookupKey r.providers name

/-- Go `(r *Registry) GetAllProviders()`: appends every stored instance, in
map iteration order. -/
def Registry.GetAllProviders (r : Registry) : List Provider :=
  r.providers.foldl (fun acc kv => acc ++ [kv.2]) []

/-- Go `(r *Registry) GetEnabledProviders()`: appends exactly the instances
whose `IsEnabled()` reports true, in map iteration order. -/
def Registry.GetEnabledProviders (r : Registry) : List Provider :=
  r.providers.foldl (fun acc kv => if kv.2.enabled then acc ++ [kv.2] else acc) []

/-- Go `(r *Registry) GetAllTools()`: snapshots the enabled providers,
then concatenates each provider's `GetTools()` output. -/
def Registry.GetAllTools (r : Registry) : List Utcp.Tool :=
  r.GetEnabledProviders.foldl (fun acc p => acc ++ p.getTools) []

/-- Go `(r *Registry) Clear()`: empties the instance map only. -/
def Registry.Clear (r : Registry) : Registry := { r with providers := [] }

end Providers

namespace Config

/-- Go `ServerConfig` (config.go). -/
structure ServerConfig where
  port : String
  environment : String
  logLevel : String

/-- Go `AuthConfig` (config.go). -/
structure AuthConfig where
  type' : String
  username : String
  password : String
  apiKey : String
  token : String
  clientID : String
  clientSecret : String
  tokenURL : String

/-- Go `ProviderConfig` (config.go). -/
structure ProviderConfig where
  name : String
  type' : String
  enabled : Bool
  baseURL : String
  auth : AuthConfig

/-- Go `Config` (config.go). -/
structure Config where
  server : ServerConfig
  providers : List ProviderConfig

/-- Go `(p *ProviderConfig) Validate()`: the guard chain and the
auth-kind switch, returning the first failing check's message (`none` is a
nil error). The switch has no default case, so unrecognized auth kinds
fall through to success. -/
def ProviderConfig.Validate (p : ProviderConfig) : Option String :=
  if p.name = "" then some "provider name is required"
  else if p.type' = "" then some "provider type is required"
  else if p.enabled ∧ p.baseURL = "" then some "base URL is required for enabled provider"
  else if p.enabled then
    if p.auth.type' = "basic" then
      if p.auth.username = "" ∨ p.auth.password = "" then
        some "username and password required for basic auth"
      else none
    else if p.auth.type' = "api_key" then
      if p.auth.apiKey = "" then some "API key required for api_key auth" else none
    else if p.auth.type' = "personal_token" then
      if p.auth.token = "" then some "token required for personal_token auth" else none
    else if p.auth.type' = "oauth2" then
      if p.auth.clientID = "" ∨ p.auth.clientSecret = "" ∨ p.auth.tokenURL = "" then
        some "client_id, client_secret, and token_url required for oauth2 auth"
      else none
    else none
  else none

/-- The provider loop of Go `(c *Config) Validate()`: returns on the first
provider whose own validation fails, wrapping the message with that
provider's name. -/
def validateProviders : List ProviderConfig → Option String
  | [] => none
  | p :: ps =>
    match p.Validate with
    | some e => some ("provider " ++ p.name ++ ": " ++ e)
    | none => validateProviders ps

/-- Go `(c *Config) Validate()`. -/
def Config.Validate (c : Config) : Option String :=
  if c.server.port = "" then some "server port is required"
  else validateProviders c.providers

/-- The spec's reading of "the declared auth variant is missing required
fields for its kind", written from the AuthDescriptor data model of the
spec; used to compare `ProviderConfig.Validate` against the spec's words. -/
def authVariantMissingRequired (a : AuthConfig) : Prop :=
  (a.type' = "basic" ∧ (a.username = "" ∨ a.password = ""))
  ∨ (a.type' = "api_key" ∧ a.apiKey = "")
  ∨ (a.type' = "personal_token" ∧ a.token = "")
  ∨ (a.type' = "oauth2" ∧ (a.clientID = "" ∨ a.clientSecret = "" ∨ a.tokenURL = ""))

/-- The provider-merge loop of Go `Load()` (config.go lines 127-148): each
file-sourced entry is appended to the accumulated provider list — seeded
with the environment-derived entries — only when no entry already in the
list carries its name; entries are appended whole, never field-merged. -/
def mergeFileProviders (envProviders fileProviders : List ProviderConfig) :
    List ProviderConfig :=
  fileProviders.foldl
    (fun acc fp => if acc.any (fun ep => ep.name == fp.name) then acc else acc ++ [fp])
    envProviders

end Config

/-! Concrete sample values, used to instantiate the theorems below on
closed inputs. -/

/-- A minimal tool value carrying only a name. -/
def sampleTool (n : String) : Utcp.Tool :=
  ⟨n, "", Utcp.Schema.zero, Utcp.Schema.zero, [], 0, []⟩

/-- A provider listing two tools, enabled flag as given. -/
def sampleProvider (n : String) (en : Bool) (tools : List Utcp.Tool) : Providers.Provider :=
  ⟨tools, n, "sample", en⟩

/-- A factory that always fails with message "boom". -/
def failFactory : Providers.Factory := fun _ => .error "boom"

/-- A factory that builds an enabled provider named "x" with no tools. -/
def okFactory : Providers.Factory := fun _ => .ok ⟨[], "x", "sample", true⟩

/-- Registry holding one factory under "sample" and one live instance named
"jira" — the state after a successful `CreateProvider("jira", "sample", …)`. -/
def sampleRegistry : Providers.Registry :=
  ⟨[("sample", failFactory)], [("jira", sampleProvider "jira" true [sampleTool "a"])]⟩

/-- Registry with an enabled and a disabled provider. -/
def mixedRegistry : Providers.Registry :=
  ⟨[], [("p1", sampleProvider "p1" true [sampleTool "a", sampleTool "b"]),
        ("p2", sampleProvider "p2" false [sampleTool "c"]),
        ("p3", sampleProvider "p3" true [sampleTool "d"])]⟩

/-- The basic-auth jira provider configuration of the validation scenario. -/
def jiraOk : Config.ProviderConfig :=
  ⟨"jira", "jira", true, "https://jira.x.com", ⟨"basic", "u", "p", "", "", "", "", ""⟩⟩

/-- The same configuration with an empty username. -/
def jiraBad : Config.ProviderConfig :=
  ⟨"jira", "jira", true, "https://jira.x.com", ⟨"basic", "", "p", "", "", "", "", ""⟩⟩

/-- A full config around `jiraOk`. -/
def cfgJiraOk : Config.Config := ⟨⟨"8080", "development", "info"⟩, [jiraOk]⟩

/-- A full config around `jiraBad`. -/
def cfgJiraBad : Config.Config := ⟨⟨"8080", "development", "info"⟩, [jiraBad]⟩

/-- A config with an empty server port. -/
def cfgNoPort : Config.Config := ⟨⟨"", "development", "info"⟩, []⟩

/-- A provider configuration with an unrecognized auth kind and all auth
fields empty. -/
def customAuthProvider : Config.ProviderConfig :=
  ⟨"gadget", "gadget", true, "https://gadget.x.com", ⟨"custom", "", "", "", "", "", "", ""⟩⟩

/-- A schema property `{type:"boolean", default:false}`. -/
def boolDefaultProp : Utcp.Property := ⟨"boolean", "", [], some (.bool false)⟩

/-- A manual containing one tool whose input schema has the property
`flag ↦ boolDefaultProp`. -/
def boolDefaultManual : Utcp.Manual :=
  ⟨"0.1.0",
   [⟨"toggle", "", ⟨"object", [("flag", boolDefaultProp)], [], "", ""⟩,
     Utcp.Schema.zero, [], 0, []⟩]⟩

/-- Environment-derived provider list for the merge sample. -/
def envProvidersSample : List Config.ProviderConfig := [jiraOk]

/-- File-derived provider list for the merge sample: one name collision
with the environment, one fresh entry. -/
def fileProvidersSample : List Config.ProviderConfig := [jiraBad, customAuthProvider]

/-! Association-list lemmas for the Go-map model. -/

theorem lookupKey_setKey_self {α : Type} (l : List (String × α)) (k : String) (v : α) :
    lookupKey (setKey l k v) k = some v := by
  induction l with
  | nil => simp [setKey, lookupKey]
  | cons hd tl ih =>
    obtain ⟨k', w⟩ := hd
    by_cases h : k' = k
    · simp [setKey, h, lookupKey]
    · simp [setKey, h, lookupKey, ih]

theorem lookupKey_map {α β : Type} (l : List (String × α)) (f : α → β) (k : String) :
    lookupKey (l.map fun kv => (kv.1, f kv.2)) k = (lookupKey l k).map f := by
  induction l with
  | nil => rfl
  | cons hd tl ih =>
    by_cases h : hd.1 = k <;> simp [lookupKey, h, ih]

/-! Case lemmas computing `CreateProvider` on each of its three paths. -/

theorem createProvider_eq_of_lookup_none (r : Providers.Registry) (name ty : String)
    (cfg : Providers.ConfigMap) (h : lookupKey r.factories ty = none) :
    r.CreateProvider name ty cfg = (some ("unknown provider type: " ++ ty), r, cfg) := by
  unfold Providers.Registry.CreateProvider
  rw [h]

theorem createProvider_eq_of_factory_error (r : Providers.Registry) (name ty : String)
    (cfg : Providers.ConfigMap) (factory : Providers.Factory) (e : String)
    (hf : lookupKey r.factories ty = some factory)
    (he : factory (setKey cfg "name" (.str name)) = .error e) :
    r.CreateProvider name ty cfg
      = (some ("failed to create provider " ++ name ++ ": " ++ e), r,
         setKey cfg "name" (.str name)) := by
  unfold Providers.Registry.CreateProvider
  rw [hf]
  simp only [he]

theorem createProvider_eq_of_factory_ok (r : Providers.Registry) (name ty : String)
    (cfg : Providers.ConfigMap) (factory : Providers.Factory) (p : Providers.Provider)
    (hf : lookupKey r.factories ty = some factory)
    (hp : factory (setKey cfg "name" (.str name)) = .ok p) :
    r.CreateProvider name ty cfg
      = (none, ⟨r.factories, setKey r.providers name p⟩, setKey cfg "name" (.str name)) := by
  unfold Providers.Registry.CreateProvider
  rw [hf]
  simp only [hp]

/-! Loop lemmas for the registry's aggregation reads. -/

theorem foldl_enabled_eq (l : List (String × Providers.Provider))
    (acc : List Providers.Provider) :
    l.foldl (fun a kv => if kv.2.enabled then a ++ [kv.2] else a) acc
      = acc ++ (l.map Prod.snd).filter (fun p => p.enabled) := by
  induction l generalizing acc with
  | nil => simp
  | cons hd tl ih =>
    by_cases h : hd.2.enabled
    · simp [h, ih, List.filter_cons]
    · simp [h, ih, List.filter_cons]

theorem foldl_tools_eq (l : List Providers.Provider) (acc : List Utcp.Tool) :
    l.foldl (fun a p => a ++ p.getTools) acc
      = acc ++ (l.map Providers.Provider.getTools).flatten := by
  induction l generalizing acc with
  | nil => simp
  | cons hd tl ih => simp [ih]

/-- C1: `GetAllTools()` returns the concatenation of the `GetTools()` lists
of exactly the providers reported enabled, in provider-then-per-provider
order — `GetEnabledProviders()` is the enabled sublist of the instance map
in iteration order, `GetAllTools()` flattens it, and every returned tool
belongs to some enabled provider, so tools of disabled providers never
appear. -/
theorem getAllTools_enabled_concat (r : Providers.Registry) :
    r.GetAllTools = (r.GetEnabledProviders.map Providers.Provider.getTools).flatten
    ∧ r.GetEnabledProviders = (r.providers.map Prod.snd).filter (fun p => p.enabled)
    ∧ ∀ t ∈ r.GetAllTools, ∃ p ∈ r.GetEnabledProviders, t ∈ p.getTools := by
  have h1 : r.GetEnabledProviders
      = (r.providers.map Prod.snd).filter (fun p => p.enabled) := by
    unfold Providers.Registry.GetEnabledProviders
    rw [foldl_enabled_eq]
    simp
  have h2 : r.GetAllTools
      = (r.GetEnabledProviders.map Providers.Provider.getTools).flatten := by
    unfold Providers.Registry.GetAllTools
    rw [foldl_tools_eq]
    simp
  refine ⟨h2, h1, ?_⟩
  intro t ht
  rw [h2] at ht
  rcases List.mem_flatten.mp ht with ⟨ts, hts, htmem⟩
  rcases List.mem_map.mp hts with ⟨p, hp, rfl⟩
  exact ⟨p, hp, htmem⟩

/-- C1 instantiated on a registry with two enabled providers and one
disabled provider: the disabled provider's tool "c" does not appear. -/
theorem getAllTools_enabled_concat_witness :
    mixedRegistry.GetAllTools
      = (mixedRegistry.GetEnabledProviders.map Providers.Provider.getTools).flatten
    ∧ mixedRegistry.GetAllTools = [sampleTool "a", sampleTool "b", sampleTool "d"]
    ∧ mixedRegistry.GetEnabledProviders
      = [sampleProvider "p1" true [sampleTool "a", sampleTool "b"],
         sampleProvider "p3" true [sampleTool "d"]] :=
  ⟨(getAllTools_enabled_concat mixedRegistry).1, rfl, rfl⟩

/-- C3: with a registered factory, a factory error makes `CreateProvider`
return the wrapped message naming the instance and leaves the registry —
in particular the instance map — unchanged; a factory success stores the
new provider under `name`, overwriting any prior entry, and `GetProvider`
then finds it. -/
theorem createProvider_factory_outcome (r : Providers.Registry) (name ty : String)
    (cfg : Providers.ConfigMap) (factory : Providers.Factory)
    (hf : lookupKey r.factories ty = some factory) :
    (∀ e, factory (setKey cfg "name" (.str name)) = .error e →
      (r.CreateProvider name ty cfg).1
          = some ("failed to create provider " ++ name ++ ": " ++ e)
      ∧ (∃ pre post, ("failed to create provider " ++ name ++ ": " ++ e)
          = pre ++ name ++ post)
      ∧ (r.CreateProvider name ty cfg).2.1 = r)
    ∧ (∀ p, factory (setKey cfg "name" (.str name)) = .ok p →
      (r.CreateProvider name ty cfg).1 = none
      ∧ (r.CreateProvider name ty cfg).2.1.providers = setKey r.providers name p
      ∧ (r.CreateProvider name ty cfg).2.1.GetProvider name = some p) := by
  constructor
  · intro e he
    rw [createProvider_eq_of_factory_error r name ty cfg factory e hf he]
    refine ⟨rfl, ⟨"failed to create provider ", ": " ++ e, ?_⟩, rfl⟩
    rw [String.append_assoc]
  · intro p hp
    rw [createProvider_eq_of_factory_ok r name ty cfg factory p hf hp]
    exact ⟨rfl, rfl, lookupKey_setKey_self _ _ _⟩

/-- C3 instantiated on a failing factory: the message wraps "boom" and
names "wiki", and the registry is untouched. -/
theorem createProvider_factory_outcome_witness :
    (sampleRegistry.CreateProvider "wiki" "sample" []).1
        = some ("failed to create provider " ++ "wiki" ++ ": " ++ "boom")
    ∧ (sampleRegistry.CreateProvider "wiki" "sample" []).2.1 = sampleRegistry :=
  ((createProvider_factory_outcome sampleRegistry "wiki" "sample" [] failFactory rfl).1
      "boom" rfl).imp id (fun h => h.2)

/-- C4 counterexample: in a reachable registry state that already stores an
instance named "jira", `CreateProvider("jira", "bogus", …)` fails with the
unknown-type error, yet `GetProvider("jira")` afterwards still finds the
pre-existing instance — not the not-found the claim asserts. -/
theorem createProvider_unknown_found_cex :
    lookupKey sampleRegistry.factories "bogus" = none
    ∧ (sampleRegistry.CreateProvider "jira" "bogus" []).1
        = some ("unknown provider type: " ++ "bogus")
    ∧ (sampleRegistry.CreateProvider "jira" "bogus" []).2.1.GetProvider "jira" ≠ none := by
  refine ⟨rfl, rfl, fun hc => ?_⟩
  have hs : (sampleRegistry.CreateProvider "jira" "bogus" []).2.1.GetProvider "jira"
      = some (sampleProvider "jira" true [sampleTool "a"]) := rfl
  rw [hc] at hs
  exact Option.noConfusion hs

/-- C4 (amended): with no factory registered for the type, `CreateProvider`
fails with the unknown-type error and leaves the registry and the caller's
config map unchanged; hence whenever no instance was already stored under
`name`, `GetProvider(name)` afterward returns not-found. -/
theorem createProvider_unknown_type (r : Providers.Registry) (name ty : String)
    (cfg : Providers.ConfigMap) (h : lookupKey r.factories ty = none) :
    (r.CreateProvider name ty cfg).1 = some ("unknown provider type: " ++ ty)
    ∧ (r.CreateProvider name ty cfg).2.1 = r
    ∧ (r.CreateProvider name ty cfg).2.2 = cfg
    ∧ (r.GetProvider name = none →
        (r.CreateProvider name ty cfg).2.1.GetProvider name = none) := by
  rw [createProvider_eq_of_lookup_none r name ty cfg h]
  exact ⟨rfl, rfl, rfl, fun hn => hn⟩

/-- C4 (amended) instantiated on a fresh registry. -/
theorem createProvider_unknown_type_witness :
    (Providers.NewRegistry.CreateProvider "jira" "jira" []).1
        = some ("unknown provider type: " ++ "jira")
    ∧ (Providers.NewRegistry.CreateProvider "jira" "jira" []).2.1.GetProvider "jira"
        = none :=
  ⟨(createProvider_unknown_type Providers.NewRegistry "jira" "jira" [] rfl).1,
   (createProvider_unknown_type Providers.NewRegistry "jira" "jira" [] rfl).2.2.2 rfl⟩

/-- C7: after a successful `RegisterFactory(ty, f)`, a second call for the
same type tag fails with the already-registered error, returns the state
unchanged, and the tag still maps to the original factory `f`. -/
theorem registerFactory_duplicate_fails (r : Providers.Registry) (ty : String)
    (f g : Providers.Factory) (h : (r.RegisterFactory ty f).1 = none) :
    ((r.RegisterFactory ty f).2.RegisterFactory ty g).1
        = some ("provider type " ++ ty ++ " already registered")
    ∧ ((r.RegisterFactory ty f).2.RegisterFactory ty g).2 = (r.RegisterFactory ty f).2
    ∧ lookupKey ((r.RegisterFactory ty f).2.RegisterFactory ty g).2.factories ty
        = some f := by
  have h' : lookupKey r.factories ty = none := by
    cases hl : lookupKey r.factories ty with
    | none => rfl
    | some f0 =>
      unfold Providers.Registry.RegisterFactory at h
      rw [hl] at h
      simp at h
  have h1 : (r.RegisterFactory ty f).2
      = ⟨setKey r.factories ty f, r.providers⟩ := by
    unfold Providers.Registry.RegisterFactory
    rw [h']
  have h2 : Providers.Registry.RegisterFactory ⟨setKey r.factories ty f, r.providers⟩ ty g
      = (some ("provider type " ++ ty ++ " already registered"),
         (⟨setKey r.factories ty f, r.providers⟩ : Providers.Registry)) := by
    unfold Providers.Registry.RegisterFactory
    rw [show lookupKey (Providers.Registry.factories ⟨setKey r.factories ty f, r.providers⟩) ty
        = some f from lookupKey_setKey_self _ _ _]
  rw [h1, h2]
  exact ⟨rfl, rfl, lookupKey_setKey_self _ _ _⟩

/-- C7 instantiated: registering "sample" twice from a fresh registry. -/
theorem registerFactory_duplicate_fails_witness :
    ((Providers.NewRegistry.RegisterFactory "sample" failFactory).2.RegisterFactory
        "sample" okFactory).1
      = some ("provider type " ++ "sample" ++ " already registered")
    ∧ ((Providers.NewRegistry.RegisterFactory "sample" failFactory).2.RegisterFactory
        "sample" okFactory).2
      = (Providers.NewRegistry.RegisterFactory "sample" failFactory).2
    ∧ lookupKey ((Providers.NewRegistry.RegisterFactory "sample" failFactory).2.RegisterFactory
        "sample" okFactory).2.factories "sample" = some failFactory :=
  registerFactory_duplicate_fails Providers.NewRegistry "sample" failFactory okFactory rfl

/-- C9: with a registered factory, `CreateProvider` hands the factory the
caller's config map updated with the entry `"name" ↦ name`, and that
updated map is what the caller is left with — also when the factory fails
and `CreateProvider` returns an error. -/
theorem createProvider_mutates_config (r : Providers.Registry) (name ty : String)
    (cfg : Providers.ConfigMap) (factory : Providers.Factory)
    (hf : lookupKey r.factories ty = some factory) :
    (r.CreateProvider name ty cfg).2.2 = setKey cfg "name" (.str name)
    ∧ lookupKey (r.CreateProvider name ty cfg).2.2 "name" = some (.str name)
    ∧ (∀ e, factory (setKey cfg "name" (.str name)) = .error e →
        (r.CreateProvider name ty cfg).1 ≠ none
        ∧ (r.CreateProvider name ty cfg).2.2 = setKey cfg "name" (.str name)) := by
  have hcfg : (r.CreateProvider name ty cfg).2.2 = setKey cfg "name" (.str name) := by
    unfold Providers.Registry.CreateProvider
    rw [hf]
    cases hr : factory (setKey cfg "name" (.str name)) <;> simp [hr]
  refine ⟨hcfg, by rw [hcfg]; exact lookupKey_setKey_self _ _ _, ?_⟩
  intro e he
  rw [createProvider_eq_of_factory_error r name ty cfg factory e hf he]
  exact ⟨fun hx => Option.noConfusion hx, rfl⟩

/-- C9 instantiated on a failing factory: the caller's map now carries
`"name" ↦ "wiki"`. -/
theorem createProvider_mutates_config_witness :
    (sampleRegistry.CreateProvider "wiki" "sample" [("url", .str "https://w")]).2.2
        = setKey [("url", .str "https://w")] "name" (.str "wiki")
    ∧ lookupKey (sampleRegistry.CreateProvider "wiki" "sample"
        [("url", .str "https://w")]).2.2 "name" = some (.str "wiki") :=
  ⟨(createProvider_mutates_config sampleRegistry "wiki" "sample"
      [("url", .str "https://w")] failFactory rfl).1,
   (createProvider_mutates_config sampleRegistry "wiki" "sample"
      [("url", .str "https://w")] failFactory rfl).2.1⟩

/-! Lemmas on the configuration validation chain. -/

theorem authChain_none_iff (a : Config.AuthConfig) :
    ¬ ((if a.type' = "basic" then
          if a.username = "" ∨ a.password = "" then
            some "username and password required for basic auth"
          else none
        else if a.type' = "api_key" then
          if a.apiKey = "" then some "API key required for api_key auth" else none
        else if a.type' = "personal_token" then
          if a.token = "" then some "token required for personal_token auth" else none
        else if a.type' = "oauth2" then
          if a.clientID = "" ∨ a.clientSecret = "" ∨ a.tokenURL = "" then
            some "client_id, client_secret, and token_url required for oauth2 auth"
          else none
        else none) = none) ↔ Config.authVariantMissingRequired a := by
  by_cases hb : a.type' = "basic"
  · simp [hb, Config.authVariantMissingRequired]
    tauto
  · by_cases hk : a.type' = "api_key"
    · simp [hb, hk, Config.authVariantMissingRequired]
    · by_cases ht : a.type' = "personal_token"
      · simp [hb, hk, ht, Config.authVariantMissingRequired]
      · by_cases ho : a.type' = "oauth2"
        · simp [hb, hk, ht, ho, Config.authVariantMissingRequired]
          tauto
        · simp [hb, hk, ht, ho, Config.authVariantMissingRequired]

theorem providerValidate_fails_iff (p : Config.ProviderConfig) :
    ¬ p.Validate = none ↔
      (p.name = "" ∨ p.type' = "" ∨ (p.enabled = true ∧ p.baseURL = "")
        ∨ (p.enabled = true ∧ Config.authVariantMissingRequired p.auth)) := by
  unfold Config.ProviderConfig.Validate
  by_cases h1 : p.name = ""
  · simp [h1]
  · rw [if_neg h1]
    by_cases h2 : p.type' = ""
    · simp [h1, h2]
    · rw [if_neg h2]
      by_cases he : p.enabled = true
      · by_cases h3 : p.baseURL = ""
        · simp [h1, h2, he, h3]
        · rw [if_neg (fun hc => h3 hc.2), if_pos he, authChain_none_iff p.auth]
          simp [h1, h2, h3, he]
      · rw [if_neg (fun hc => he hc.1), if_neg he]
        simp [h1, h2, he]

theorem validateProviders_append_ok (ps1 rest : List Config.ProviderConfig)
    (h : ∀ q ∈ ps1, q.Validate = none) :
    Config.validateProviders (ps1 ++ rest) = Config.validateProviders rest := by
  induction ps1 with
  | nil => rfl
  | cons q qs ih =>
    have hq := h q (List.mem_cons_self q qs)
    simp only [List.cons_append, Config.validateProviders, hq]
    exact ih (fun x hx => h x (List.mem_cons_of_mem q hx))

/-- C5: `Validate()` rejects an empty server port; a provider fails its own
validation exactly when its name or type is empty, when it is enabled with
an empty base URL, or when it is enabled and its declared auth variant
lacks a required field; the first offending provider's name is reported;
and the two jira scenarios behave as stated, the failure message carrying
"username and password". -/
theorem config_validate_spec :
    (∀ c : Config.Config, c.server.port = "" → c.Validate = some "server port is required")
    ∧ (∀ (c : Config.Config) (ps1 ps2 : List Config.ProviderConfig)
        (p : Config.ProviderConfig) (e : String),
        ¬ c.server.port = "" → c.providers = ps1 ++ p :: ps2 →
        (∀ q ∈ ps1, q.Validate = none) → p.Validate = some e →
        c.Validate = some ("provider " ++ p.name ++ ": " ++ e))
    ∧ (∀ p : Config.ProviderConfig, ¬ p.Validate = none ↔
        (p.name = "" ∨ p.type' = "" ∨ (p.enabled = true ∧ p.baseURL = "")
          ∨ (p.enabled = true ∧ Config.authVariantMissingRequired p.auth)))
    ∧ jiraOk.Validate = none
    ∧ cfgJiraOk.Validate = none
    ∧ cfgJiraBad.Validate = some "provider jira: username and password required for basic auth"
    ∧ ∃ pre post : String,
        "provider jira: username and password required for basic auth"
          = pre ++ "username and password" ++ post := by
  refine ⟨?_, ?_, providerValidate_fails_iff, rfl, rfl, rfl,
    ⟨"provider jira: ", " required for basic auth", by rfl⟩⟩
  · intro c hp
    unfold Config.Config.Validate
    rw [if_pos hp]
  · intro c ps1 ps2 p e hport hps hok hpe
    unfold Config.Config.Validate
    rw [if_neg hport, hps, validateProviders_append_ok ps1 _ hok]
    simp [Config.validateProviders, hpe]

/-- C5 instantiated: the empty-port config and the empty-username jira
config fail with the stated messages. -/
theorem config_validate_spec_witness :
    cfgNoPort.Validate = some "server port is required"
    ∧ cfgJiraBad.Validate
        = some "provider jira: username and password required for basic auth" :=
  ⟨config_validate_spec.1 cfgNoPort rfl, config_validate_spec.2.2.2.2.2.1⟩

/-- C10: a provider configuration with non-empty name and type, a base URL
present when enabled, and an auth kind that is none of "basic", "api_key",
"personal_token" or "oauth2" passes validation no matter which auth fields
are empty — the switch has no default case. -/
theorem validate_unknown_auth_kind (p : Config.ProviderConfig)
    (h1 : ¬ p.name = "") (h2 : ¬ p.type' = "")
    (h3 : p.enabled = true → ¬ p.baseURL = "")
    (h4 : ¬ p.auth.type' = "basic") (h5 : ¬ p.auth.type' = "api_key")
    (h6 : ¬ p.auth.type' = "personal_token") (h7 : ¬ p.auth.type' = "oauth2") :
    p.Validate = none := by
  unfold Config.ProviderConfig.Validate
  rw [if_neg h1, if_neg h2, if_neg (fun hc => h3 hc.1 hc.2)]
  by_cases he : p.enabled = true
  · rw [if_pos he, if_neg h4, if_neg h5, if_neg h6, if_neg h7]
  · rw [if_neg he]

/-- C10 instantiated: an enabled provider with auth kind "custom" and every
auth field empty validates successfully. -/
theorem validate_unknown_auth_kind_witness : customAuthProvider.Validate = none :=
  validate_unknown_auth_kind customAuthProvider (by decide) (by decide)
    (fun _ => by decide) (by decide) (by decide) (by decide) (by decide)

/-! The provider-merge loop of `Load()`. -/

theorem mergeFold_exists (file : List Config.ProviderConfig) :
    ∀ acc : List Config.ProviderConfig,
      ∃ kept : List Config.ProviderConfig,
        file.foldl (fun acc fp =>
            if acc.any (fun ep => ep.name == fp.name) then acc else acc ++ [fp]) acc
          = acc ++ kept
        ∧ kept.Sublist file
        ∧ ∀ fp ∈ kept, ∀ ep ∈ acc, ¬ ep.name = fp.name := by
  induction file with
  | nil => exact fun acc => ⟨[], by simp, List.nil_sublist _, by simp⟩
  | cons fp rest ih =>
    intro acc
    by_cases hc : acc.any (fun ep => ep.name == fp.name)
    · obtain ⟨kept, h1, h2, h3⟩ := ih acc
      refine ⟨kept, ?_, h2.cons fp, h3⟩
      rw [List.foldl_cons, if_pos hc]
      exact h1
    · obtain ⟨kept, h1, h2, h3⟩ := ih (acc ++ [fp])
      refine ⟨fp :: kept, ?_, h2.cons₂ fp, ?_⟩
      · rw [List.foldl_cons, if_neg hc, h1]
        simp
      · intro x hx ep hep
        rcases List.mem_cons.mp hx with rfl | hxk
        · intro hname
          apply hc
          rw [List.any_eq_true]
          exact ⟨ep, hep, by simp [hname]⟩
        · exact h3 x hxk ep (List.mem_append_left _ hep)

/-- C6: the merge keeps every environment-derived entry first and
unchanged, appends a subsequence of the file entries whole (no field-level
merge), and a file entry is appended only when no environment-derived
entry carries its name — environment wins on every name collision. -/
theorem mergeFileProviders_env_precedence (env file : List Config.ProviderConfig) :
    ∃ kept : List Config.ProviderConfig,
      Config.mergeFileProviders env file = env ++ kept
      ∧ kept.Sublist file
      ∧ ∀ fp ∈ kept, ∀ ep ∈ env, ¬ ep.name = fp.name :=
  mergeFold_exists file env

/-- C6 instantiated: the file's "jira" entry is dropped whole in favour of
the environment's, the fresh "gadget" entry is appended whole. -/
theorem mergeFileProviders_env_precedence_witness :
    (∃ kept : List Config.ProviderConfig,
      Config.mergeFileProviders envProvidersSample fileProvidersSample
        = envProvidersSample ++ kept
      ∧ kept.Sublist fileProvidersSample
      ∧ ∀ fp ∈ kept, ∀ ep ∈ envProvidersSample, ¬ ep.name = fp.name)
    ∧ Config.mergeFileProviders envProvidersSample fileProvidersSample
        = [jiraOk, customAuthProvider] :=
  ⟨mergeFileProviders_env_precedence _ _, rfl⟩

/-- C2: a property whose default is present — whatever its value, falsy
included — serializes inside the manual's JSON with the key "default"
bound to exactly that value: the manual's "tools" array contains the
tool's object, whose "inputs" object's "properties" entry for the
property's key carries a "default" field equal to the stored value. -/
theorem serialize_default_present (m : Utcp.Manual) (t : Utcp.Tool) (k : String)
    (pr : Utcp.Property) (v : Json)
    (ht : t ∈ m.tools) (hk : lookupKey t.inputs.properties k = some pr)
    (hv : pr.default = some v) :
    ∃ jts : List Json,
      m.toJson.getObjField "tools" = some (.arr jts)
      ∧ t.toJson ∈ jts
      ∧ t.toJson.getObjField "inputs" = some t.inputs.toJson
      ∧ ∃ props : List (String × Json),
          t.inputs.toJson.getObjField "properties" = some (.obj props)
          ∧ lookupKey props k = some pr.toJson
          ∧ pr.toJson.getObjField "default" = some v := by
  have hne : t.inputs.properties.isEmpty = false := by
    cases hps : t.inputs.properties with
    | nil => rw [hps] at hk; exact Option.noConfusion hk
    | cons a l => rfl
  refine ⟨m.tools.map Utcp.Tool.toJson, ?_, List.mem_map_of_mem _ ht, ?_,
    t.inputs.properties.map (fun kp => (kp.1, kp.2.toJson)), ?_, ?_, ?_⟩
  · simp [Utcp.Manual.toJson, Json.getObjField, lookupKey]
  · simp [Utcp.Tool.toJson, Json.getObjField, lookupKey]
  · simp [Utcp.Schema.toJson, Json.getObjField, lookupKey, hne]
  · rw [lookupKey_map, hk]
    rfl
  · by_cases hen : pr.enum.isEmpty <;>
      simp [Utcp.Property.toJson, Json.getObjField, lookupKey, hv, hen]

/-- C2 instantiated on the `ToggleManual` scenario: the serialized property
`flag : boolean, default false` carries "default": false. -/
theorem serialize_default_present_witness :
    (∃ jts : List Json,
      boolDefaultManual.toJson.getObjField "tools" = some (.arr jts)
      ∧ ∃ props : List (String × Json),
          Json.getObjField (Utcp.Schema.toJson (Utcp.Tool.inputs
            ⟨"toggle", "", ⟨"object", [("flag", boolDefaultProp)], [], "", ""⟩,
             Utcp.Schema.zero, [], 0, []⟩)) "properties" = some (.obj props)
          ∧ boolDefaultProp.toJson.getObjField "default" = some (.bool false))
    ∧ boolDefaultProp.toJson.getObjField "default" = some (.bool false) := by
  have h := serialize_default_present boolDefaultManual
    ⟨"toggle", "", ⟨"object", [("flag", boolDefaultProp)], [], "", ""⟩,
     Utcp.Schema.zero, [], 0, []⟩ "flag" boolDefaultProp (.bool false)
    (List.mem_singleton.mpr rfl) rfl rfl
  obtain ⟨jts, hj, hmem, hin, props, hprops, hlk, hdef⟩ := h
  exact ⟨⟨jts, hj, props, hprops, hdef⟩, hdef⟩

/-! Round-trip lemmas: decoding what serialization produced succeeds. -/

theorem decodeList_asString_map (xs : List String) :
    Utcp.decodeList Utcp.asString (xs.map Json.str) = some xs := by
  induction xs with
  | nil => rfl
  | cons h t ih => simp [Utcp.decodeList, Utcp.asString, ih]

theorem property_fromJson_ok (p : Utcp.Property) :
    ∃ p', Utcp.Property.fromJson p.toJson = some p' := by
  by_cases hen : p.enum.isEmpty <;> cases hd : p.default <;>
    simp [Utcp.Property.toJson, Utcp.Property.fromJson, Utcp.getField, lookupKey,
      Utcp.asString, Utcp.asStringList, decodeList_asString_map, hen, hd]

theorem decodePropertyPairs_ok (props : List (String × Utcp.Property)) :
    ∃ ps, Utcp.decodePropertyPairs (props.map fun kp => (kp.1, kp.2.toJson))
        = some ps := by
  induction props with
  | nil => exact ⟨[], rfl⟩
  | cons hd tl ih =>
    obtain ⟨p', hp'⟩ := property_fromJson_ok hd.2
    obtain ⟨ps, hps⟩ := ih
    exact ⟨(hd.1, p') :: ps, by simp [Utcp.decodePropertyPairs, hp', hps]⟩

theorem schema_fromJson_ok (s : Utcp.Schema) :
    ∃ s', Utcp.Schema.fromJson s.toJson = some s' := by
  obtain ⟨ps, hps⟩ := decodePropertyPairs_ok s.properties
  by_cases h1 : s.properties.isEmpty <;> by_cases h2 : s.required.isEmpty <;>
    by_cases h3 : s.description = "" <;> by_cases h4 : s.title = "" <;>
    simp [Utcp.Schema.toJson, Utcp.Schema.fromJson, Utcp.getField, lookupKey,
      Utcp.asString, Utcp.asStringList, Utcp.asPropertyMap, decodeList_asString_map,
      hps, h1, h2, h3, h4]

theorem tool_fromJson_ok (t : Utcp.Tool) :
    ∃ t', Utcp.Tool.fromJson t.toJson = some t' ∧ t'.name = t.name := by
  obtain ⟨si, hsi⟩ := schema_fromJson_ok t.inputs
  obtain ⟨so, hso⟩ := schema_fromJson_ok t.outputs
  refine ⟨⟨t.name, t.description, si, so, t.tags, t.averageResponseSize, t.toolProvider⟩,
    ?_, rfl⟩
  by_cases htg : t.tags.isEmpty
  · by_cases hsz : t.averageResponseSize = 0
    · simp [Utcp.Tool.toJson, Utcp.Tool.fromJson, Utcp.getField, lookupKey, Utcp.asString,
        Utcp.asInt, Utcp.asObj, Utcp.asStringList, decodeList_asString_map, htg, hsz,
        hsi, hso, List.isEmpty_iff.mp htg]
    · simp [Utcp.Tool.toJson, Utcp.Tool.fromJson, Utcp.getField, lookupKey, Utcp.asString,
        Utcp.asInt, Utcp.asObj, Utcp.asStringList, decodeList_asString_map, htg, hsz,
        hsi, hso, List.isEmpty_iff.mp htg]
  · by_cases hsz : t.averageResponseSize = 0
    · simp [Utcp.Tool.toJson, Utcp.Tool.fromJson, Utcp.getField, lookupKey, Utcp.asString,
        Utcp.asInt, Utcp.asObj, Utcp.asStringList, decodeList_asString_map, htg, hsz,
        hsi, hso]
    · simp [Utcp.Tool.toJson, Utcp.Tool.fromJson, Utcp.getField, lookupKey, Utcp.asString,
        Utcp.asInt, Utcp.asObj, Utcp.asStringList, decodeList_asString_map, htg, hsz,
        hsi, hso]

theorem decodeList_tool_names (tools : List Utcp.Tool) :
    ∃ ts, Utcp.decodeList Utcp.Tool.fromJson (tools.map Utcp.Tool.toJson) = some ts
      ∧ ts.map Utcp.Tool.name = tools.map Utcp.Tool.name := by
  induction tools with
  | nil => exact ⟨[], rfl, rfl⟩
  | cons hd tl ih =>
    obtain ⟨t', ht', hname⟩ := tool_fromJson_ok hd
    obtain ⟨ts, hts, hnames⟩ := ih
    exact ⟨t' :: ts, by simp [Utcp.decodeList, ht', hts], by simp [hname, hnames]⟩

/-- C8: serializing any manual and parsing the result back yields a manual
with the same version string and the same sequence of tool names in the
same order. -/
theorem manual_roundtrip (m : Utcp.Manual) :
    ∃ m' : Utcp.Manual, Utcp.Manual.fromJson m.toJson = some m'
      ∧ m'.version = m.version
      ∧ m'.tools.map Utcp.Tool.name = m.tools.map Utcp.Tool.name := by
  obtain ⟨ts, hts, hnames⟩ := decodeList_tool_names m.tools
  refine ⟨⟨m.version, ts⟩, ?_, rfl, hnames⟩
  simp [Utcp.Manual.toJson, Utcp.Manual.fromJson, Utcp.getField, lookupKey,
    Utcp.asString, Utcp.asToolList, hts]

/-- C8 instantiated on the sample manual: the parsed manual carries version
"0.1.0" and the tool-name sequence `["toggle"]`. -/
theorem manual_roundtrip_witness :
    (∃ m' : Utcp.Manual, Utcp.Manual.fromJson boolDefaultManual.toJson = some m'
      ∧ m'.version = boolDefaultManual.version
      ∧ m'.tools.map Utcp.Tool.name = boolDefaultManual.tools.map Utcp.Tool.name)
    ∧ (Utcp.Manual.fromJson boolDefaultManual.toJson).map Utcp.Manual.version
        = some "0.1.0"
    ∧ (Utcp.Manual.fromJson boolDefaultManual.toJson).map
        (fun m' => m'.tools.map Utcp.Tool.name) = some ["toggle"] :=
  ⟨manual_roundtrip boolDefaultManual, rfl, rfl⟩

end RhUtcp
